import Mathlib

/-!
Verification of the visa library (Rust) against its specification.

The development shallowly embeds the relevant parts of the source:
machine integers become Nat/Int, byte buffers become List Nat, fallible
operations return Except, and the stateful transport (the VISA C API) is
modelled by passing the raw status codes and buffers it would produce as
explicit arguments.
-/

namespace Visa

/-- Rust std::time::Duration: whole seconds plus a nanosecond remainder. -/
structure Duration where
  secs : Nat
  nanos : Nat
deriving DecidableEq

/-- Rust Duration::as_millis: total milliseconds of the duration. -/
def Duration.as_millis (d : Duration) : Nat :=
  d.secs * 1000 + d.nanos / 1000000

/-- CompletionCode from src/error.rs: the successful / warning outcomes of a
transport call. -/
inductive CompletionCode where
  | Success
  | EventEnabled
  | EventDisabled
  | QueueEmpty
  | TerminationCharacterRead
  | MaximumCount
  | DeviceNotPresent
  | TrigPathMapped
  | QueueNotEmpty
  | DoNotInvokeHandler
  | NestedSharedLock
  | NestedExclusiveLock
  | AsynchronousOperationHandledSynchronously
  | QueueOverflow
  | ConfigurationNotLoaded
  | NullObject
  | AttributeStateNotSupported
  | UnknownStatus
  | BufferNotSupported
  | ExtendedFunctionNotImplemented
deriving DecidableEq

/-- Error from src/error.rs.  The fatal transport conditions carry no payload;
the library-internal failure kinds carry the same payloads as the source
(raw code, offending string, mismatched lengths, the rejected duration).
The InvalidCompletionCode payload is u32 in the source; it is reached only
for non-negative codes, on which the `as u32` cast is value-preserving, so it
is carried here as the same Int. -/
inductive Error where
  | System
  | InvalidObject
  | ResourceLocked
  | InvalidExpression
  | ResourceNotFound
  | InvalidResourceName
  | InvalidAccessMode
  | Timeout
  | ClosingFailed
  | InvalidDegree
  | InvalidJobId
  | AttributeNotSupported
  | AttributeStateNotSupported
  | AttibuteReadOnly
  | InvalidLockType
  | InvalidAccessKey
  | InvalidEvent
  | InvalidMechanism
  | HandlerNotInstalled
  | InvalidHandlerReference
  | InvalidContext
  | QueueOverflow
  | NotEnabled
  | Abort
  | RawWriteProtocolViolation
  | RawReadProtocolViolation
  | OutputProtocolViolation
  | InputProtocolViolation
  | Bus
  | InProgress
  | InvalidSetup
  | Queue
  | Allocation
  | InvalidMask
  | Io
  | InvalidFormat
  | FormatNotSupported
  | TriggerLineInUse
  | ModeNotSupported
  | ServiceRequestNotReceived
  | InvalidAddressSpace
  | InvalidOffset
  | InvalidWidth
  | OffsetNotAccessible
  | VariableWidthNotSupported
  | SessionNotMapped
  | ResponsePending
  | NoListeners
  | NotControllerInCharge
  | NotSystemController
  | OperationNotSupported
  | InterruptPending
  | AsrlParity
  | AsrlFraming
  | AsrlOverrun
  | TriggerNotMapped
  | OffsetNotAligned
  | UserBuffer
  | ResourceBusy
  | WidthNotSupported
  | InvalidParameter
  | InvalidProtocol
  | InvalidSize
  | WindowMapped
  | OperationNotImplemented
  | InvalidLength
  | InvalidMode
  | SessionNotLocked
  | MemoryNotShared
  | LibraryNotFound
  | InterruptNotSupported
  | InvalidLine
  | FileAccess
  | FileIo
  | LineNotSupported
  | MechanismNotSupported
  | InterfaceNumberNotConfigured
  | ConnectionLost
  | MachineNotAvailable
  | NoPermission
  | InvalidErrorCode (code : Int)
  | InvalidCompletionCode (code : Int)
  | InvalidTimeout (duration : Duration)
  | WriteLengthMistmatch (length expected : Nat)
  | InvalidUtf8
  | InvalidNullString
  | IdentityParse (raw : String)
  | StandardEventStatusRegisterParse (raw : String)
  | StandardEventStatusEnableRegisterParse (raw : String)
  | OperationCompleteQueryParse (raw : String)
  | StatusByteRegisterQueryParse (raw : String)
  | SelfTestParse (raw : String)
  | ServiceRequestEnableQueryParse (raw : String)
  | UnexpectedCompletionCode (code : CompletionCode)

/-! ### VISA status constants

Modelled from the spec: the numeric values below come from the external
visa-bindings crate, which is not part of this repository.  They are the
fixed status tables of the VISA standard, which the spec requires to be
reproduced exactly (error codes are 0xBFFF0000 plus a small offset,
interpreted as a negative 32-bit integer; success and warning codes are
0x3FFF0000 plus a small offset, except plain VI_SUCCESS which is 0). -/

/-- 0xBFFF0000 as a signed 32-bit integer. -/
def viErrorBase : Int := -1073807360

/-- 0x3FFF0000. -/
def viSuccessBase : Int := 1073676288

def VI_ERROR_SYSTEM_ERROR : Int := viErrorBase + 0x00
def VI_ERROR_INV_OBJECT : Int := viErrorBase + 0x0E
def VI_ERROR_RSRC_LOCKED : Int := viErrorBase + 0x0F
def VI_ERROR_INV_EXPR : Int := viErrorBase + 0x10
def VI_ERROR_RSRC_NFOUND : Int := viErrorBase + 0x11
def VI_ERROR_INV_RSRC_NAME : Int := viErrorBase + 0x12
def VI_ERROR_INV_ACC_MODE : Int := viErrorBase + 0x13
def VI_ERROR_TMO : Int := viErrorBase + 0x15
def VI_ERROR_CLOSING_FAILED : Int := viErrorBase + 0x16
def VI_ERROR_INV_DEGREE : Int := viErrorBase + 0x1B
def VI_ERROR_INV_JOB_ID : Int := viErrorBase + 0x1C
def VI_ERROR_NSUP_ATTR : Int := viErrorBase + 0x1D
def VI_ERROR_NSUP_ATTR_STATE : Int := viErrorBase + 0x1E
def VI_ERROR_ATTR_READONLY : Int := viErrorBase + 0x1F
def VI_ERROR_INV_LOCK_TYPE : Int := viErrorBase + 0x20
def VI_ERROR_INV_ACCESS_KEY : Int := viErrorBase + 0x21
def VI_ERROR_INV_EVENT : Int := viErrorBase + 0x26
def VI_ERROR_INV_MECH : Int := viErrorBase + 0x27
def VI_ERROR_HNDLR_NINSTALLED : Int := viErrorBase + 0x28
def VI_ERROR_INV_HNDLR_REF : Int := viErrorBase + 0x29
def VI_ERROR_INV_CONTEXT : Int := viErrorBase + 0x2A
def VI_ERROR_QUEUE_OVERFLOW : Int := viErrorBase + 0x2D
def VI_ERROR_NENABLED : Int := viErrorBase + 0x2F
def VI_ERROR_ABORT : Int := viErrorBase + 0x30
def VI_ERROR_RAW_WR_PROT_VIOL : Int := viErrorBase + 0x34
def VI_ERROR_RAW_RD_PROT_VIOL : Int := viErrorBase + 0x35
def VI_ERROR_OUTP_PROT_VIOL : Int := viErrorBase + 0x36
def VI_ERROR_INP_PROT_VIOL : Int := viErrorBase + 0x37
def VI_ERROR_BERR : Int := viErrorBase + 0x38
def VI_ERROR_IN_PROGRESS : Int := viErrorBase + 0x39
def VI_ERROR_INV_SETUP : Int := viErrorBase + 0x3A
def VI_ERROR_QUEUE_ERROR : Int := viErrorBase + 0x3B
def VI_ERROR_ALLOC : Int := viErrorBase + 0x3C
def VI_ERROR_INV_MASK : Int := viErrorBase + 0x3D
def VI_ERROR_IO : Int := viErrorBase + 0x3E
def VI_ERROR_INV_FMT : Int := viErrorBase + 0x3F
def VI_ERROR_NSUP_FMT : Int := viErrorBase + 0x41
def VI_ERROR_LINE_IN_USE : Int := viErrorBase + 0x42
def VI_ERROR_NSUP_MODE : Int := viErrorBase + 0x46
def VI_ERROR_SRQ_NOCCURRED : Int := viErrorBase + 0x4A
def VI_ERROR_INV_SPACE : Int := viErrorBase + 0x4E
def VI_ERROR_INV_OFFSET : Int := viErrorBase + 0x51
def VI_ERROR_INV_WIDTH : Int := viErrorBase + 0x52
def VI_ERROR_NSUP_OFFSET : Int := viErrorBase + 0x54
def VI_ERROR_NSUP_VAR_WIDTH : Int := viErrorBase + 0x55
def VI_ERROR_WINDOW_NMAPPED : Int := viErrorBase + 0x57
def VI_ERROR_RESP_PENDING : Int := viErrorBase + 0x59
def VI_ERROR_NLISTENERS : Int := viErrorBase + 0x5F
def VI_ERROR_NCIC : Int := viErrorBase + 0x60
def VI_ERROR_NSYS_CNTLR : Int := viErrorBase + 0x61
def VI_ERROR_NSUP_OPER : Int := viErrorBase + 0x67
def VI_ERROR_INTR_PENDING : Int := viErrorBase + 0x68
def VI_ERROR_ASRL_PARITY : Int := viErrorBase + 0x6A
def VI_ERROR_ASRL_FRAMING : Int := viErrorBase + 0x6B
def VI_ERROR_ASRL_OVERRUN : Int := viErrorBase + 0x6C
def VI_ERROR_TRIG_NMAPPED : Int := viErrorBase + 0x6E
def VI_ERROR_NSUP_ALIGN_OFFSET : Int := viErrorBase + 0x70
def VI_ERROR_USER_BUF : Int := viErrorBase + 0x71
def VI_ERROR_RSRC_BUSY : Int := viErrorBase + 0x72
def VI_ERROR_NSUP_WIDTH : Int := viErrorBase + 0x76
def VI_ERROR_INV_PARAMETER : Int := viErrorBase + 0x78
def VI_ERROR_INV_PROT : Int := viErrorBase + 0x79
def VI_ERROR_INV_SIZE : Int := viErrorBase + 0x7B
def VI_ERROR_WINDOW_MAPPED : Int := viErrorBase + 0x80
def VI_ERROR_NIMPL_OPER : Int := viErrorBase + 0x81
def VI_ERROR_INV_LENGTH : Int := viErrorBase + 0x83
def VI_ERROR_INV_MODE : Int := viErrorBase + 0x91
def VI_ERROR_SESN_NLOCKED : Int := viErrorBase + 0x9C
def VI_ERROR_MEM_NSHARED : Int := viErrorBase + 0x9D
def VI_ERROR_LIBRARY_NFOUND : Int := viErrorBase + 0x9E
def VI_ERROR_NSUP_INTR : Int := viErrorBase + 0x9F
def VI_ERROR_INV_LINE : Int := viErrorBase + 0xA0
def VI_ERROR_FILE_ACCESS : Int := viErrorBase + 0xA1
def VI_ERROR_FILE_IO : Int := viErrorBase + 0xA2
def VI_ERROR_NSUP_LINE : Int := viErrorBase + 0xA3
def VI_ERROR_NSUP_MECH : Int := viErrorBase + 0xA4
def VI_ERROR_INTF_NUM_NCONFIG : Int := viErrorBase + 0xA5
def VI_ERROR_CONN_LOST : Int := viErrorBase + 0xA6
def VI_ERROR_MACHINE_NAVAIL : Int := viErrorBase + 0xA7
def VI_ERROR_NPERMISSION : Int := viErrorBase + 0xA8

def VI_SUCCESS : Int := 0
def VI_SUCCESS_EVENT_EN : Int := viSuccessBase + 0x02
def VI_SUCCESS_EVENT_DIS : Int := viSuccessBase + 0x03
def VI_SUCCESS_QUEUE_EMPTY : Int := viSuccessBase + 0x04
def VI_SUCCESS_TERM_CHAR : Int := viSuccessBase + 0x05
def VI_SUCCESS_MAX_CNT : Int := viSuccessBase + 0x06
def VI_SUCCESS_DEV_NPRESENT : Int := viSuccessBase + 0x7D
def VI_SUCCESS_TRIG_MAPPED : Int := viSuccessBase + 0x7E
def VI_SUCCESS_QUEUE_NEMPTY : Int := viSuccessBase + 0x80
def VI_SUCCESS_NCHAIN : Int := viSuccessBase + 0x98
def VI_SUCCESS_NESTED_SHARED : Int := viSuccessBase + 0x99
def VI_SUCCESS_NESTED_EXCLUSIVE : Int := viSuccessBase + 0x9A
def VI_SUCCESS_SYNC : Int := viSuccessBase + 0x9B
def VI_WARN_QUEUE_OVERFLOW : Int := viSuccessBase + 0x0C
def VI_WARN_CONFIG_NLOADED : Int := viSuccessBase + 0x77
def VI_WARN_NULL_OBJECT : Int := viSuccessBase + 0x82
def VI_WARN_NSUP_ATTR_STATE : Int := viSuccessBase + 0x84
def VI_WARN_UNKNOWN_STATUS : Int := viSuccessBase + 0x85
def VI_WARN_NSUP_BUF : Int := viSuccessBase + 0x88
def VI_WARN_EXT_FUNC_NIMPL : Int := viSuccessBase + 0xA9

/-- The fatal-condition match arms of TryFrom for CompletionCode
(src/error.rs lines 333 to 412), rendered as an association table in source
order; the match on constant patterns is a first-match lookup. -/
def fatalTable : List (Int × Error) :=
  [(VI_ERROR_SYSTEM_ERROR, Error.System),
   (VI_ERROR_INV_OBJECT, Error.InvalidObject),
   (VI_ERROR_RSRC_LOCKED, Error.ResourceLocked),
   (VI_ERROR_INV_EXPR, Error.InvalidExpression),
   (VI_ERROR_RSRC_NFOUND, Error.ResourceNotFound),
   (VI_ERROR_INV_RSRC_NAME, Error.InvalidResourceName),
   (VI_ERROR_INV_ACC_MODE, Error.InvalidAccessMode),
   (VI_ERROR_TMO, Error.Timeout),
   (VI_ERROR_CLOSING_FAILED, Error.ClosingFailed),
   (VI_ERROR_INV_DEGREE, Error.InvalidDegree),
   (VI_ERROR_INV_JOB_ID, Error.InvalidJobId),
   (VI_ERROR_NSUP_ATTR, Error.AttributeNotSupported),
   (VI_ERROR_NSUP_ATTR_STATE, Error.AttributeStateNotSupported),
   (VI_ERROR_ATTR_READONLY, Error.AttibuteReadOnly),
   (VI_ERROR_INV_LOCK_TYPE, Error.InvalidLockType),
   (VI_ERROR_INV_ACCESS_KEY, Error.InvalidAccessKey),
   (VI_ERROR_INV_EVENT, Error.InvalidEvent),
   (VI_ERROR_INV_MECH, Error.InvalidMechanism),
   (VI_ERROR_HNDLR_NINSTALLED, Error.HandlerNotInstalled),
   (VI_ERROR_INV_HNDLR_REF, Error.InvalidHandlerReference),
   (VI_ERROR_INV_CONTEXT, Error.InvalidContext),
   (VI_ERROR_QUEUE_OVERFLOW, Error.QueueOverflow),
   (VI_ERROR_NENABLED, Error.NotEnabled),
   (VI_ERROR_ABORT, Error.Abort),
   (VI_ERROR_RAW_WR_PROT_VIOL, Error.RawWriteProtocolViolation),
   (VI_ERROR_RAW_RD_PROT_VIOL, Error.RawReadProtocolViolation),
   (VI_ERROR_OUTP_PROT_VIOL, Error.OutputProtocolViolation),
   (VI_ERROR_INP_PROT_VIOL, Error.InputProtocolViolation),
   (VI_ERROR_BERR, Error.Bus),
   (VI_ERROR_IN_PROGRESS, Error.InProgress),
   (VI_ERROR_INV_SETUP, Error.InvalidSetup),
   (VI_ERROR_QUEUE_ERROR, Error.Queue),
   (VI_ERROR_ALLOC, Error.Allocation),
   (VI_ERROR_INV_MASK, Error.InvalidMask),
   ( VI_ERROR_IO, Error.Io),
   (VI_ERROR_INV_FMT, Error.InvalidFormat),
   (VI_ERROR_NSUP_FMT, Error.FormatNotSupported),
   (VI_ERROR_LINE_IN_USE, Error.TriggerLineInUse),
   (VI_ERROR_NSUP_MODE, Error.ModeNotSupported),
   (VI_ERROR_SRQ_NOCCURRED, Error.ServiceRequestNotReceived),
   (VI_ERROR_INV_SPACE, Error.InvalidAddressSpace),
   (VI_ERROR_INV_OFFSET, Error.InvalidOffset),
   (VI_ERROR_INV_WIDTH, Error.InvalidWidth),
   (VI_ERROR_NSUP_OFFSET, Error.OffsetNotAccessible),
   (VI_ERROR_NSUP_VAR_WIDTH, Error.VariableWidthNotSupported),
   (VI_ERROR_WINDOW_NMAPPED, Error.SessionNotMapped),
   (VI_ERROR_RESP_PENDING, Error.ResponsePending),
   (VI_ERROR_NLISTENERS, Error.NoListeners),
   (VI_ERROR_NCIC, Error.NotControllerInCharge),
   (VI_ERROR_NSYS_CNTLR, Error.NotSystemController),
   (VI_ERROR_NSUP_OPER, Error.OperationNotSupported),
   (VI_ERROR_INTR_PENDING, Error.InterruptPending),
   (VI_ERROR_ASRL_PARITY, Error.AsrlParity),
   (VI_ERROR_ASRL_FRAMING, Error.AsrlFraming),
   (VI_ERROR_ASRL_OVERRUN, Error.AsrlOverrun),
   (VI_ERROR_TRIG_NMAPPED, Error.TriggerNotMapped),
   (VI_ERROR_NSUP_ALIGN_OFFSET, Error.OffsetNotAligned),
   (VI_ERROR_USER_BUF, Error.UserBuffer),
   (VI_ERROR_RSRC_BUSY, Error.ResourceBusy),
   (VI_ERROR_NSUP_WIDTH, Error.WidthNotSupported),
   (VI_ERROR_INV_PARAMETER, Error.InvalidParameter),
   (VI_ERROR_INV_PROT, Error.InvalidProtocol),
   (VI_ERROR_INV_SIZE, Error.InvalidSize),
   (VI_ERROR_WINDOW_MAPPED, Error.WindowMapped),
   (VI_ERROR_NIMPL_OPER, Error.OperationNotImplemented),
   (VI_ERROR_INV_LENGTH, Error.InvalidLength),
   (VI_ERROR_INV_MODE, Error.InvalidMode),
   (VI_ERROR_SESN_NLOCKED, Error.SessionNotLocked),
   (VI_ERROR_MEM_NSHARED, Error.MemoryNotShared),
   (VI_ERROR_LIBRARY_NFOUND, Error.LibraryNotFound),
   (VI_ERROR_NSUP_INTR, Error.InterruptNotSupported),
   (VI_ERROR_INV_LINE, Error.InvalidLine),
   (VI_ERROR_FILE_ACCESS, Error.FileAccess),
   ( VI_ERROR_FILE_IO, Error.FileIo),
   (VI_ERROR_NSUP_LINE, Error.LineNotSupported),
   (VI_ERROR_NSUP_MECH, Error.MechanismNotSupported),
   (VI_ERROR_INTF_NUM_NCONFIG, Error.InterfaceNumberNotConfigured),
   (VI_ERROR_CONN_LOST, Error.ConnectionLost),
   (VI_ERROR_MACHINE_NAVAIL, Error.MachineNotAvailable),
   (VI_ERROR_NPERMISSION, Error.NoPermission)]

/-- The success and warning match arms of TryFrom for CompletionCode
(src/error.rs lines 418 to 437), rendered as an association table in source
order. -/
def successTable : List (Int × CompletionCode) :=
  [(VI_SUCCESS, CompletionCode.Success),
   (VI_SUCCESS_EVENT_EN, CompletionCode.EventEnabled),
   (VI_SUCCESS_EVENT_DIS, CompletionCode.EventDisabled),
   (VI_SUCCESS_QUEUE_EMPTY, CompletionCode.QueueEmpty),
   (VI_SUCCESS_TERM_CHAR, CompletionCode.TerminationCharacterRead),
   (VI_SUCCESS_MAX_CNT, CompletionCode.MaximumCount),
   (VI_SUCCESS_DEV_NPRESENT, CompletionCode.DeviceNotPresent),
   (VI_SUCCESS_TRIG_MAPPED, CompletionCode.TrigPathMapped),
   (VI_SUCCESS_QUEUE_NEMPTY, CompletionCode.QueueNotEmpty),
   (VI_SUCCESS_NCHAIN, CompletionCode.DoNotInvokeHandler),
   (VI_SUCCESS_NESTED_SHARED, CompletionCode.NestedSharedLock),
   (VI_SUCCESS_NESTED_EXCLUSIVE, CompletionCode.NestedExclusiveLock),
   (VI_SUCCESS_SYNC, CompletionCode.AsynchronousOperationHandledSynchronously),
   (VI_WARN_QUEUE_OVERFLOW, CompletionCode.QueueOverflow),
   (VI_WARN_CONFIG_NLOADED, CompletionCode.ConfigurationNotLoaded),
   (VI_WARN_NULL_OBJECT, CompletionCode.NullObject),
   (VI_WARN_NSUP_ATTR_STATE, CompletionCode.AttributeStateNotSupported),
   (VI_WARN_UNKNOWN_STATUS, CompletionCode.UnknownStatus),
   (VI_WARN_NSUP_BUF, CompletionCode.BufferNotSupported),
   (VI_WARN_EXT_FUNC_NIMPL, CompletionCode.ExtendedFunctionNotImplemented)]

/-- TryFrom ViStatus for CompletionCode (src/error.rs lines 328 to 443).
The source matches the raw signed status against the fatal constants, then
checks the sign, then matches against the success and warning constants;
unmatched negative codes become InvalidErrorCode, unmatched non-negative
codes become InvalidCompletionCode. -/
def CompletionCode.tryFrom (value : Int) : Except Error CompletionCode :=
  match fatalTable.find? (fun p => p.1 == value) with
  | some p => .error p.2
  | none =>
    if value < 0 then .error (.InvalidErrorCode value)
    else
      match successTable.find? (fun p => p.1 == value) with
      | some p => .ok p.2
      | none => .error (.InvalidCompletionCode value)

lemma find_none_of_not_mem_fst {α β : Type} [BEq α] [LawfulBEq α]
    (l : List (α × β)) (s : α) (h : s ∉ l.map Prod.fst) :
    l.find? (fun p => p.1 == s) = none := by
  induction l with
  | nil => rfl
  | cons a t ih =>
    simp only [List.map_cons, List.mem_cons, not_or] at h
    rw [List.find?_cons_of_neg, ih h.2]
    simp only [beq_iff_eq]
    exact fun he => h.1 he.symm

lemma tryFrom_fatal_entry : ∀ p ∈ fatalTable, CompletionCode.tryFrom p.1 = .error p.2 := by
  intro p hp
  fin_cases hp <;> rfl

lemma tryFrom_success_entry : ∀ p ∈ successTable, CompletionCode.tryFrom p.1 = .ok p.2 := by
  intro p hp
  fin_cases hp <;> rfl

lemma fatal_keys_neg : ∀ p ∈ fatalTable, p.1 < 0 := by decide

lemma tryFrom_unmatched_neg (s : Int) (hneg : s < 0) (h : s ∉ fatalTable.map Prod.fst) :
    CompletionCode.tryFrom s = .error (.InvalidErrorCode s) := by
  unfold CompletionCode.tryFrom
  rw [find_none_of_not_mem_fst _ _ h]
  simp [hneg]

lemma tryFrom_unmatched_nonneg (s : Int) (hpos : 0 ≤ s) (h : s ∉ successTable.map Prod.fst) :
    CompletionCode.tryFrom s = .error (.InvalidCompletionCode s) := by
  have hf : s ∉ fatalTable.map Prod.fst := by
    intro hmem
    simp only [List.mem_map] at hmem
    obtain ⟨p, hp, rfl⟩ := hmem
    exact absurd (fatal_keys_neg p hp) (not_lt.mpr hpos)
  unfold CompletionCode.tryFrom
  rw [find_none_of_not_mem_fst _ _ hf, find_none_of_not_mem_fst _ _ h]
  simp [not_lt.mpr hpos]

/-- C1: the completion-code classifier returns exactly one of a fatal Error or
a CompletionCode: every code in the fixed fatal table maps to its specific
Error variant, every unmatched negative code returns InvalidErrorCode carrying
the raw value, every code in the success/warning table maps to its specific
CompletionCode variant, and every unmatched non-negative code returns
InvalidCompletionCode carrying the raw value. -/
theorem C1_completion_code_classifier (s : Int) :
    (∀ e, (s, e) ∈ fatalTable → CompletionCode.tryFrom s = .error e) ∧
    (s < 0 → s ∉ fatalTable.map Prod.fst →
      CompletionCode.tryFrom s = .error (.InvalidErrorCode s)) ∧
    (∀ c, (s, c) ∈ successTable → CompletionCode.tryFrom s = .ok c) ∧
    (0 ≤ s → s ∉ successTable.map Prod.fst →
      CompletionCode.tryFrom s = .error (.InvalidCompletionCode s)) := by
  refine ⟨fun e he => tryFrom_fatal_entry (s, e) he,
    fun hneg h => tryFrom_unmatched_neg s hneg h,
    fun c hc => tryFrom_success_entry (s, c) hc,
    fun hpos h => tryFrom_unmatched_nonneg s hpos h⟩

/-- Witness for C1: the classifier evaluated on a mapped fatal code
(VI_ERROR_TMO), an unmapped negative code, a mapped warning code
(VI_SUCCESS_TERM_CHAR) and an unmapped non-negative code. -/
theorem C1_completion_code_classifier_witness :
    CompletionCode.tryFrom (-1073807339) = .error .Timeout ∧
    CompletionCode.tryFrom (-5) = .error (.InvalidErrorCode (-5)) ∧
    CompletionCode.tryFrom 1073676293 = .ok .TerminationCharacterRead ∧
    CompletionCode.tryFrom 7 = .error (.InvalidCompletionCode 7) := by
  refine ⟨(C1_completion_code_classifier (-1073807339)).1 .Timeout
      (by simp [fatalTable, VI_ERROR_TMO, viErrorBase]),
    (C1_completion_code_classifier (-5)).2.1 (by decide) (by decide),
    (C1_completion_code_classifier 1073676293).2.2.1 .TerminationCharacterRead (by decide),
    (C1_completion_code_classifier 7).2.2.2 (by decide) (by decide)⟩

/-- Timeout from src/utility.rs. -/
inductive Timeout where
  | Immediate
  | Custom (duration : Duration)
  | Maximum
  | Infinite
deriving DecidableEq

/-- TryFrom Timeout for ViUInt32 (src/utility.rs lines 14 to 27).  A Custom
duration converts through as_millis and the u128-to-u32 try_into, which
succeeds exactly when the millisecond count fits 32 unsigned bits; on
overflow the source maps the failure to InvalidTimeout carrying the
duration. -/
def Timeout.tryIntoViUInt32 : Timeout → Except Error Nat
  | .Immediate => .ok 0
  | .Custom duration =>
      if duration.as_millis ≤ 0xFFFFFFFF then .ok duration.as_millis
      else .error (.InvalidTimeout duration)
  | .Maximum => .ok 0xFFFFFFFE
  | .Infinite => .ok 0xFFFFFFFF

/-- C7: timeout-to-wire conversion is exact: Immediate converts to 0, Maximum
to 0xFFFFFFFE, Infinite to 0xFFFFFFFF, and a Custom duration converts to its
millisecond count when that fits an unsigned 32-bit integer and fails with
InvalidTimeout carrying the duration when it does not. -/
theorem C7_timeout_conversion (d : Duration) :
    Timeout.tryIntoViUInt32 .Immediate = .ok 0 ∧
    Timeout.tryIntoViUInt32 .Maximum = .ok 0xFFFFFFFE ∧
    Timeout.tryIntoViUInt32 .Infinite = .ok 0xFFFFFFFF ∧
    (d.as_millis ≤ 0xFFFFFFFF →
      Timeout.tryIntoViUInt32 (.Custom d) = .ok d.as_millis) ∧
    (0xFFFFFFFF < d.as_millis →
      Timeout.tryIntoViUInt32 (.Custom d) = .error (.InvalidTimeout d)) := by
  refine ⟨rfl, rfl, rfl, fun h => ?_, fun h => ?_⟩
  · simp [Timeout.tryIntoViUInt32, h]
  · simp [Timeout.tryIntoViUInt32, not_le.mpr h]

/-- Witness for C7: a one-second duration converts to 1000 milliseconds and a
duration of 2^32 seconds overflows the 32-bit wire form. -/
theorem C7_timeout_conversion_witness :
    Timeout.tryIntoViUInt32 (.Custom ⟨1, 0⟩) = .ok 1000 ∧
    Timeout.tryIntoViUInt32 (.Custom ⟨4294967296, 0⟩) =
      .error (.InvalidTimeout ⟨4294967296, 0⟩) := by
  exact ⟨(C7_timeout_conversion ⟨1, 0⟩).2.2.2.1 (by decide),
    (C7_timeout_conversion ⟨4294967296, 0⟩).2.2.2.2 (by norm_num [Duration.as_millis])⟩

/-! ### FlushMode

The VI buffer-mask constants are modelled from the spec: their numeric
values come from the external visa-bindings crate (the VISA standard buffer
operation masks). -/

def VI_READ_BUF : Nat := 1
def VI_WRITE_BUF : Nat := 2
def VI_READ_BUF_DISCARD : Nat := 4
def VI_WRITE_BUF_DISCARD : Nat := 8
def VI_IO_IN_BUF : Nat := 16
def VI_IO_OUT_BUF : Nat := 32
def VI_IO_IN_BUF_DISCARD : Nat := 64
def VI_IO_OUT_BUF_DISCARD : Nat := 128

/-- FlushMode from src/utility.rs lines 54 to 66: a bitflags wrapper over the
16-bit buffer mask passed to viFlush. -/
structure FlushMode where
  bits : Nat
deriving DecidableEq

def FlushMode.READ_BUFFER : FlushMode := ⟨VI_READ_BUF⟩
def FlushMode.READ_BUFFER_DISCARD : FlushMode := ⟨VI_READ_BUF_DISCARD⟩
def FlushMode.WRITE_BUFFER : FlushMode := ⟨VI_WRITE_BUF⟩
def FlushMode.WRITE_BUFFER_DISCARD : FlushMode := ⟨VI_WRITE_BUF_DISCARD⟩
def FlushMode.IO_INPUT_BUFFER : FlushMode := ⟨VI_IO_IN_BUF⟩
def FlushMode.IO_INPUT_BUFFER_DISCARD : FlushMode := ⟨VI_IO_IN_BUF_DISCARD⟩
def FlushMode.IO_OUTPUT_BUFFER : FlushMode := ⟨VI_IO_OUT_BUF⟩

/-- Source line 64 defines IO_OUTPUT_BUFFER_DISCARD from VI_IO_OUT_BUF,
not from VI_IO_OUT_BUF_DISCARD. -/
def FlushMode.IO_OUTPUT_BUFFER_DISCARD : FlushMode := ⟨VI_IO_OUT_BUF⟩

/-- Session::flush (src/session.rs lines 65 to 70): the transport is invoked
with mode.bits(); the raw status is classified and discarded on success. -/
def Session.flushBits (mode : FlushMode) : Nat := mode.bits

/-- Session::flush outcome for a transport that answers with the given raw
status code. -/
def Session.flush (mode : FlushMode) (status : Int) : Except Error Unit :=
  match CompletionCode.tryFrom status with
  | .error e => .error e
  | .ok _ => .ok ()

/-- C10: the FlushMode constants IO_OUTPUT_BUFFER_DISCARD and
IO_OUTPUT_BUFFER have identical underlying bit values, so every flush call
through the discard variant passes the same buffer-mask bit to the transport
and behaves identically to the non-discard variant. -/
theorem C10_io_output_discard_alias :
    FlushMode.IO_OUTPUT_BUFFER_DISCARD = FlushMode.IO_OUTPUT_BUFFER ∧
    Session.flushBits FlushMode.IO_OUTPUT_BUFFER_DISCARD =
      Session.flushBits FlushMode.IO_OUTPUT_BUFFER ∧
    ∀ status : Int, Session.flush FlushMode.IO_OUTPUT_BUFFER_DISCARD status =
      Session.flush FlushMode.IO_OUTPUT_BUFFER status := by
  exact ⟨rfl, rfl, fun _ => rfl⟩

/-! ### Response-text parsing -/

/-- Rust char::is_whitespace: the Unicode White_Space property, used by
str::trim. -/
def isRustWhitespace (c : Char) : Bool :=
  c.toNat ∈ [0x09, 0x0A, 0x0B, 0x0C, 0x0D, 0x20, 0x85, 0xA0, 0x1680,
    0x2000, 0x2001, 0x2002, 0x2003, 0x2004, 0x2005, 0x2006, 0x2007, 0x2008,
    0x2009, 0x200A, 0x2028, 0x2029, 0x202F, 0x205F, 0x3000]

/-- Rust str::trim: strip leading and trailing whitespace. -/
def rustTrim (s : String) : String :=
  String.mk (((s.data.dropWhile isRustWhitespace).reverse.dropWhile
    isRustWhitespace).reverse)

/-- Rust u8 FromStr (str::parse with target u8): an optional leading plus
sign, then one or more ASCII decimal digits, with the accumulated value
required to stay within 0 to 255. -/
def parseU8 (s : String) : Option Nat :=
  let digits := match s.data with
    | '+' :: rest => rest
    | chars => chars
  if digits.isEmpty then none
  else if digits.all Char.isDigit then
    let v := digits.foldl (fun acc c => acc * 10 + (c.toNat - 0x30)) 0
    if v ≤ 255 then some v else none
  else none

/-- MandatoryCommands::operation_complete_query response handling
(src/utility.rs lines 117 to 124): the response string is matched exactly,
without trimming. -/
def operation_complete_parse (response : String) : Except Error Bool :=
  if response = "0" then .ok false
  else if response = "1" then .ok true
  else .error (.OperationCompleteQueryParse response)

/-- MandatoryCommands::self_test_query response handling (src/utility.rs
lines 145 to 152): the response string is matched exactly, without trimming,
and with the polarity inverted relative to operation-complete. -/
def self_test_parse (response : String) : Except Error Bool :=
  if response = "0" then .ok true
  else if response = "1" then .ok false
  else .error (.SelfTestParse response)

/-- Standard Event Status Register (src/utility.rs lines 186 to 209): the
bitflags type retains all eight underlying bits (const _ = !0). -/
structure StandardEventStatusRegister where
  bits : Nat
deriving DecidableEq

/-- TryFrom for StandardEventStatusRegister (src/utility.rs lines 211 to
222): trim, parse as u8, retain all bits. -/
def StandardEventStatusRegister.tryFrom (value : String) :
    Except Error StandardEventStatusRegister :=
  match parseU8 (rustTrim value) with
  | some v => .ok ⟨v⟩
  | none => .error (.StandardEventStatusRegisterParse value)

/-- Standard Event Status Enable Register (src/utility.rs lines 224 to
247). -/
structure StandardEventStatusEnableRegister where
  bits : Nat
deriving DecidableEq

/-- TryFrom for StandardEventStatusEnableRegister (src/utility.rs lines 249
to 260).  The source maps its parse failure to
Error::StandardEventStatusRegisterParse (the SESR kind), not to the dedicated
Error::StandardEventStatusEnableRegisterParse variant, which the source
declares but never constructs. -/
def StandardEventStatusEnableRegister.tryFrom (value : String) :
    Except Error StandardEventStatusEnableRegister :=
  match parseU8 (rustTrim value) with
  | some v => .ok ⟨v⟩
  | none => .error (.StandardEventStatusRegisterParse value)

def StandardEventStatusEnableRegister.value
    (r : StandardEventStatusEnableRegister) : Nat := r.bits

/-- Status Byte Register (src/utility.rs lines 268 to 300). -/
structure StatusByteRegister where
  bits : Nat
deriving DecidableEq

/-- TryFrom for StatusByteRegister (src/utility.rs lines 302 to 313). -/
def StatusByteRegister.tryFrom (value : String) :
    Except Error StatusByteRegister :=
  match parseU8 (rustTrim value) with
  | some v => .ok ⟨v⟩
  | none => .error (.StatusByteRegisterQueryParse value)

/-- Service Request Enable Register (src/utility.rs lines 315 to 334). -/
structure ServiceRequestEnable where
  bits : Nat
deriving DecidableEq

/-- TryFrom for ServiceRequestEnable (src/utility.rs lines 336 to 347). -/
def ServiceRequestEnable.tryFrom (value : String) :
    Except Error ServiceRequestEnable :=
  match parseU8 (rustTrim value) with
  | some v => .ok ⟨v⟩
  | none => .error (.ServiceRequestEnableQueryParse value)

def ServiceRequestEnable.value (r : ServiceRequestEnable) : Nat := r.bits

/-- Identification from src/utility.rs lines 159 to 165. -/
structure Identification where
  manufacturer : String
  model : String
  serial : String
  firmware : String
deriving DecidableEq

/-- Rust str::split with the comma pattern: cut at every comma, keeping
empty pieces, as a structural recursion (accumulating the current piece in
reverse). -/
def splitCommaAux : List Char → List Char → List String
  | [], acc => [String.mk acc.reverse]
  | c :: rest, acc =>
    if c = ',' then String.mk acc.reverse :: splitCommaAux rest []
    else splitCommaAux rest (c :: acc)

/-- TryFrom for Identification (src/utility.rs lines 167 to 184): trim,
split on commas, require exactly four fields. -/
def Identification.tryFrom (value : String) : Except Error Identification :=
  let parts := splitCommaAux (rustTrim value).data []
  if h : parts.length = 4 then
    .ok ⟨parts.get ⟨0, by omega⟩, parts.get ⟨1, by omega⟩,
      parts.get ⟨2, by omega⟩, parts.get ⟨3, by omega⟩⟩
  else .error (.IdentityParse value)

set_option maxRecDepth 4096 in
lemma parseU8_repr (n : Nat) (h : n < 256) :
    parseU8 (rustTrim (Nat.repr n)) = some n := by
  have key : ∀ m : Fin 256, parseU8 (rustTrim (Nat.repr m.val)) = some m.val := by
    decide
  exact key ⟨n, h⟩

/-- C8: permissive bit retention round-trip: parsing the decimal string of
any unsigned 8-bit value into each of the four register types and reading
back the underlying bits returns the value unchanged, including bits with
no named meaning. -/
theorem C8_register_roundtrip (n : Nat) (h : n < 256) :
    (StandardEventStatusRegister.tryFrom (Nat.repr n)).map
      StandardEventStatusRegister.bits = .ok n ∧
    (StandardEventStatusEnableRegister.tryFrom (Nat.repr n)).map
      StandardEventStatusEnableRegister.value = .ok n ∧
    (StatusByteRegister.tryFrom (Nat.repr n)).map
      StatusByteRegister.bits = .ok n ∧
    (ServiceRequestEnable.tryFrom (Nat.repr n)).map
      ServiceRequestEnable.value = .ok n := by
  have hp := parseU8_repr n h
  refine ⟨?_, ?_, ?_, ?_⟩ <;>
    simp [StandardEventStatusRegister.tryFrom,
      StandardEventStatusEnableRegister.tryFrom, StatusByteRegister.tryFrom,
      ServiceRequestEnable.tryFrom, hp, Except.map,
      StandardEventStatusEnableRegister.value, ServiceRequestEnable.value]

/-- Witness for C8: the round-trip at 133, a value with bits that have no
named meaning (bits 0, 2 and 7 set). -/
theorem C8_register_roundtrip_witness :
    (StandardEventStatusRegister.tryFrom "133").map
      StandardEventStatusRegister.bits = .ok 133 ∧
    (ServiceRequestEnable.tryFrom "133").map
      ServiceRequestEnable.value = .ok 133 := by
  have h := C8_register_roundtrip 133 (by norm_num)
  have e : Nat.repr 133 = "133" := rfl
  rw [e] at h
  exact ⟨h.1, h.2.2.2⟩

/-- C6: the two boolean queries have inverted polarity by design: the
operation-complete query maps "1" to true and "0" to false and fails with
OperationCompleteQueryParse carrying the text on any other response, while
the self-test query maps "0" to true (passed) and "1" to false (failed) and
fails with SelfTestParse carrying the text on any other response. -/
theorem C6_boolean_query_polarity (s : String) :
    operation_complete_parse "1" = .ok true ∧
    operation_complete_parse "0" = .ok false ∧
    (s ≠ "0" → s ≠ "1" →
      operation_complete_parse s = .error (.OperationCompleteQueryParse s)) ∧
    self_test_parse "0" = .ok true ∧
    self_test_parse "1" = .ok false ∧
    (s ≠ "0" → s ≠ "1" → self_test_parse s = .error (.SelfTestParse s)) := by
  refine ⟨rfl, rfl, fun h0 h1 => ?_, rfl, rfl, fun h0 h1 => ?_⟩ <;>
    simp [operation_complete_parse, self_test_parse, h0, h1]

/-- Witness for C6: both queries reject the response "2" with their own
error kinds. -/
theorem C6_boolean_query_polarity_witness :
    operation_complete_parse "2" = .error (.OperationCompleteQueryParse "2") ∧
    self_test_parse "2" = .error (.SelfTestParse "2") := by
  exact ⟨(C6_boolean_query_polarity "2").2.2.1 (by decide) (by decide),
    (C6_boolean_query_polarity "2").2.2.2.2.2 (by decide) (by decide)⟩

/-- C3, evaluated at the failing input: a non-decimal response to the
standard-event-status-enable query fails with the
StandardEventStatusRegisterParse kind of the event-status register, not with
the dedicated StandardEventStatusEnableRegisterParse kind that the source
declares for this query and never constructs. -/
theorem C3_ese_parse_error_kind :
    StandardEventStatusEnableRegister.tryFrom "abc" =
      .error (.StandardEventStatusRegisterParse "abc") ∧
    StandardEventStatusEnableRegister.tryFrom "abc" ≠
      .error (.StandardEventStatusEnableRegisterParse "abc") := by
  have h1 : StandardEventStatusEnableRegister.tryFrom "abc" =
      .error (.StandardEventStatusRegisterParse "abc") := rfl
  refine ⟨h1, ?_⟩
  rw [h1]
  simp

/-- C4 counterexample: the operation-complete query does not trim its
response; "1" followed by a newline fails with OperationCompleteQueryParse
instead of parsing as true. -/
theorem C4_no_trim_counterexample :
    operation_complete_parse "1\n" =
      .error (.OperationCompleteQueryParse "1\n") := rfl

set_option maxRecDepth 8192 in
lemma parseU8_repr_padded (n : Nat) (h : n < 256) :
    parseU8 (rustTrim (Nat.repr n ++ "\n")) = some n ∧
    parseU8 (rustTrim (" " ++ Nat.repr n ++ "\n")) = some n := by
  have key : ∀ m : Fin 256,
      parseU8 (rustTrim (Nat.repr m.val ++ "\n")) = some m.val ∧
      parseU8 (rustTrim (" " ++ Nat.repr m.val ++ "\n")) = some m.val := by
    decide
  exact key ⟨n, h⟩

/-- C4, amended: the register and identification parsers trim surrounding
whitespace before parsing, but the boolean-as-digit operation-complete and
self-test queries match the exact response text, so "1" with a trailing
newline fails with OperationCompleteQueryParse rather than parsing as
true. -/
theorem C4_trimming_amended (n : Nat) (h : n < 256) :
    StandardEventStatusRegister.tryFrom (Nat.repr n ++ "\n") = .ok ⟨n⟩ ∧
    StandardEventStatusEnableRegister.tryFrom (" " ++ Nat.repr n ++ "\n") =
      .ok ⟨n⟩ ∧
    StatusByteRegister.tryFrom (Nat.repr n ++ "\n") = .ok ⟨n⟩ ∧
    ServiceRequestEnable.tryFrom (" " ++ Nat.repr n ++ "\n") = .ok ⟨n⟩ ∧
    Identification.tryFrom "ACME,Model5,SN001,1.2.3\n" =
      .ok ⟨"ACME", "Model5", "SN001", "1.2.3"⟩ ∧
    operation_complete_parse "1\n" =
      .error (.OperationCompleteQueryParse "1\n") ∧
    self_test_parse "0\n" = .error (.SelfTestParse "0\n") := by
  have hp := parseU8_repr_padded n h
  refine ⟨?_, ?_, ?_, ?_, rfl, rfl, rfl⟩ <;>
    simp [StandardEventStatusRegister.tryFrom,
      StandardEventStatusEnableRegister.tryFrom, StatusByteRegister.tryFrom,
      ServiceRequestEnable.tryFrom, hp.1, hp.2]

/-- Witness for C4: the event-status register parses "1" with a trailing
newline while the operation-complete query rejects the same text. -/
theorem C4_trimming_amended_witness :
    StandardEventStatusRegister.tryFrom "1\n" = .ok ⟨1⟩ ∧
    operation_complete_parse "1\n" =
      .error (.OperationCompleteQueryParse "1\n") := by
  have h := C4_trimming_amended 1 (by norm_num)
  have e : Nat.repr 1 ++ "\n" = "1\n" := rfl
  rw [e] at h
  exact ⟨h.1, h.2.2.2.2.2.1⟩

/-! ### Transport session -/

/-- A UTF-8 continuation byte (0x80 to 0xBF). -/
def isUtf8Cont (b : Nat) : Bool := 0x80 ≤ b && b ≤ 0xBF

/-- Validity of a byte sequence as UTF-8, as checked by Rust
String::from_utf8: ASCII bytes stand alone; 2-byte leads are 0xC2 to 0xDF;
3-byte leads are 0xE0 (second byte 0xA0 to 0xBF), 0xE1 to 0xEC and 0xEE to
0xEF (second byte any continuation), and 0xED (second byte 0x80 to 0x9F,
excluding surrogates); 4-byte leads are 0xF0 (second byte 0x90 to 0xBF),
0xF1 to 0xF3, and 0xF4 (second byte 0x80 to 0x8F, capping at U+10FFFF). -/
def utf8Valid : List Nat → Bool
  | [] => true
  | b :: rest =>
    if b ≤ 0x7F then utf8Valid rest
    else if 0xC2 ≤ b && b ≤ 0xDF then
      match rest with
      | c1 :: rest2 => isUtf8Cont c1 && utf8Valid rest2
      | [] => false
    else if b == 0xE0 then
      match rest with
      | c1 :: c2 :: rest2 =>
          (0xA0 ≤ c1 && c1 ≤ 0xBF) && isUtf8Cont c2 && utf8Valid rest2
      | _ => false
    else if (0xE1 ≤ b && b ≤ 0xEC) || (0xEE ≤ b && b ≤ 0xEF) then
      match rest with
      | c1 :: c2 :: rest2 => isUtf8Cont c1 && isUtf8Cont c2 && utf8Valid rest2
      | _ => false
    else if b == 0xED then
      match rest with
      | c1 :: c2 :: rest2 =>
          (0x80 ≤ c1 && c1 ≤ 0x9F) && isUtf8Cont c2 && utf8Valid rest2
      | _ => false
    else if b == 0xF0 then
      match rest with
      | c1 :: c2 :: c3 :: rest2 =>
          (0x90 ≤ c1 && c1 ≤ 0xBF) && isUtf8Cont c2 && isUtf8Cont c3 &&
            utf8Valid rest2
      | _ => false
    else if 0xF1 ≤ b && b ≤ 0xF3 then
      match rest with
      | c1 :: c2 :: c3 :: rest2 =>
          isUtf8Cont c1 && isUtf8Cont c2 && isUtf8Cont c3 && utf8Valid rest2
      | _ => false
    else if b == 0xF4 then
      match rest with
      | c1 :: c2 :: c3 :: rest2 =>
          (0x80 ≤ c1 && c1 ≤ 0x8F) && isUtf8Cont c2 && isUtf8Cont c3 &&
            utf8Valid rest2
      | _ => false
    else false

/-- One viRead result from the transport: the bytes placed in the chunk
buffer and the raw status code. -/
structure ReadResult where
  bytes : List Nat
  status : Int
deriving DecidableEq

/-- The loop of Session::read (src/session.rs lines 72 to 102), driven by a
script of transport results, with the accumulated output as explicit state.
Each iteration classifies the raw status (propagating classification
failures), appends the chunk to the output, then branches: Success or
TerminationCharacterRead stop the loop and run the UTF-8 validation the
source performs right after it; MaximumCount continues; any other completion
code fails with UnexpectedCompletionCode.  The value none means the script
was exhausted while the loop still wanted another chunk. -/
def Session.readLoop : List ReadResult → List Nat → Option (Except Error (List Nat))
  | [], _ => none
  | r :: rest, output =>
    match CompletionCode.tryFrom r.status with
    | .error e => some (.error e)
    | .ok completion_code =>
      let output2 := output ++ r.bytes
      match completion_code with
      | .Success | .TerminationCharacterRead =>
          some (if utf8Valid output2 then .ok output2 else .error .InvalidUtf8)
      | .MaximumCount => Session.readLoop rest output2
      | other => some (.error (.UnexpectedCompletionCode other))

/-- Session::read: the loop started on an empty accumulator. -/
def Session.read (script : List ReadResult) : Option (Except Error (List Nat)) :=
  Session.readLoop script []

/-- C2: the read loop stops and returns the accumulated bytes exactly when a
chunk is classified Success or TerminationCharacterRead (failing with
InvalidUtf8, never repairing, when the accumulated bytes are not valid
UTF-8), continues on MaximumCount, and fails with UnexpectedCompletionCode
carrying the code on any other completion code. -/
theorem C2_read_loop_policy (r : ReadResult) (rest : List ReadResult)
    (output : List Nat) (code : CompletionCode)
    (h : CompletionCode.tryFrom r.status = .ok code) :
    ((code = .Success ∨ code = .TerminationCharacterRead) →
      utf8Valid (output ++ r.bytes) = true →
      Session.readLoop (r :: rest) output = some (.ok (output ++ r.bytes))) ∧
    ((code = .Success ∨ code = .TerminationCharacterRead) →
      utf8Valid (output ++ r.bytes) = false →
      Session.readLoop (r :: rest) output = some (.error .InvalidUtf8)) ∧
    (code = .MaximumCount →
      Session.readLoop (r :: rest) output =
        Session.readLoop rest (output ++ r.bytes)) ∧
    (code ≠ .Success → code ≠ .TerminationCharacterRead →
      code ≠ .MaximumCount →
      Session.readLoop (r :: rest) output =
        some (.error (.UnexpectedCompletionCode code))) := by
  refine ⟨fun hc hv => ?_, fun hc hv => ?_, fun hc => ?_, fun h1 h2 h3 => ?_⟩
  · rcases hc with hc | hc <;> subst hc <;> simp [Session.readLoop, h, hv]
  · rcases hc with hc | hc <;> subst hc <;> simp [Session.readLoop, h, hv]
  · subst hc; simp [Session.readLoop, h]
  · cases code <;> simp_all [Session.readLoop]

/-- Witness for C2: a two-chunk script, the first chunk reporting
VI_SUCCESS_MAX_CNT (continue), the second plain VI_SUCCESS (stop), yields
the concatenation of both chunks. -/
theorem C2_read_loop_policy_witness :
    Session.readLoop [⟨[0x48], 1073676294⟩, ⟨[0x69], 0⟩] [] =
      some (.ok [0x48, 0x69]) := by
  have h1 := C2_read_loop_policy ⟨[0x48], 1073676294⟩ [⟨[0x69], 0⟩] []
    .MaximumCount rfl
  have h2 := C2_read_loop_policy ⟨[0x69], 0⟩ [] [0x48] .Success rfl
  rw [h1.2.2.1 rfl]
  have h3 := h2.1 (Or.inl rfl) (by decide)
  simpa using h3

/-- Session::write (src/session.rs lines 43 to 63) against a transport whose
viWrite call reports the given raw status code and written-byte count: the
status is classified, then the reported count is strictly compared with the
byte length of the command. -/
def Session.write (command : List Nat) (returnCount : Nat) (status : Int) :
    Except Error Unit :=
  match CompletionCode.tryFrom status with
  | .error e => .error e
  | .ok _ =>
    if command.length ≠ returnCount then
      .error (.WriteLengthMistmatch returnCount command.length)
    else .ok ()

/-- C5: with a successful completion code, write fails with the
write-length-mismatch error exactly when the transport-reported count
differs from the byte length of the command, with the length field holding
the reported count and the expected field holding the requested length,
never swapped; when the counts agree it returns success. -/
theorem C5_write_length_mismatch (command : List Nat) (returnCount : Nat)
    (status : Int) (code : CompletionCode)
    (h : CompletionCode.tryFrom status = .ok code) :
    (returnCount ≠ command.length →
      Session.write command returnCount status =
        .error (.WriteLengthMistmatch returnCount command.length)) ∧
    (returnCount = command.length →
      Session.write command returnCount status = .ok ()) := by
  refine ⟨fun hc => ?_, fun hc => ?_⟩
  · simp [Session.write, h, Ne.symm hc]
  · simp [Session.write, h, hc]

/-- Witness for C5: writing the five bytes of the *CLS command while the
transport reports 3 written bytes fails with length 3 and expected 5;
reporting 5 succeeds. -/
theorem C5_write_length_mismatch_witness :
    Session.write [0x2A, 0x43, 0x4C, 0x53, 0x0A] 3 0 =
      .error (.WriteLengthMistmatch 3 5) ∧
    Session.write [0x2A, 0x43, 0x4C, 0x53, 0x0A] 5 0 = .ok () := by
  have h1 := C5_write_length_mismatch [0x2A, 0x43, 0x4C, 0x53, 0x0A] 3 0
    .Success rfl
  have h2 := C5_write_length_mismatch [0x2A, 0x43, 0x4C, 0x53, 0x0A] 5 0
    .Success rfl
  exact ⟨h1.1 (by decide), h2.2 (by decide)⟩

/-! ### Buffer decoding and resource discovery -/

/-- The Unicode replacement character emitted by lossy UTF-8 decoding. -/
def replacementChar : Char := '\uFFFD'

/-- Rust String::from_utf8_lossy, as used by CStr::to_string_lossy: decode
UTF-8, replacing each maximal subpart of an ill-formed subsequence with one
replacement character (substitution of maximal subparts, as in the Unicode
standard and the Rust implementation).  The fuel argument, instantiated with
the byte count, only bounds the recursion; every step consumes at least one
byte. -/
def utf8DecodeLossyAux : Nat → List Nat → List Char
  | 0, _ => []
  | _ + 1, [] => []
  | fuel + 1, b :: rest =>
    if b ≤ 0x7F then Char.ofNat b :: utf8DecodeLossyAux fuel rest
    else if 0xC2 ≤ b && b ≤ 0xDF then
      match rest with
      | [] => [replacementChar]
      | c1 :: rest2 =>
        if isUtf8Cont c1 then
          Char.ofNat ((b - 0xC0) * 0x40 + (c1 - 0x80)) ::
            utf8DecodeLossyAux fuel rest2
        else replacementChar :: utf8DecodeLossyAux fuel (c1 :: rest2)
    else if 0xE0 ≤ b && b ≤ 0xEF then
      match rest with
      | [] => [replacementChar]
      | c1 :: rest2 =>
        if (if b == 0xE0 then 0xA0 ≤ c1 && c1 ≤ 0xBF
            else if b == 0xED then 0x80 ≤ c1 && c1 ≤ 0x9F
            else isUtf8Cont c1) then
          match rest2 with
          | [] => [replacementChar]
          | c2 :: rest3 =>
            if isUtf8Cont c2 then
              Char.ofNat ((b - 0xE0) * 0x1000 + (c1 - 0x80) * 0x40 +
                (c2 - 0x80)) :: utf8DecodeLossyAux fuel rest3
            else replacementChar :: utf8DecodeLossyAux fuel (c2 :: rest3)
        else replacementChar :: utf8DecodeLossyAux fuel (c1 :: rest2)
    else if 0xF0 ≤ b && b ≤ 0xF4 then
      match rest with
      | [] => [replacementChar]
      | c1 :: rest2 =>
        if (if b == 0xF0 then 0x90 ≤ c1 && c1 ≤ 0xBF
            else if b == 0xF4 then 0x80 ≤ c1 && c1 ≤ 0x8F
            else isUtf8Cont c1) then
          match rest2 with
          | [] => [replacementChar]
          | c2 :: rest3 =>
            if isUtf8Cont c2 then
              match rest3 with
              | [] => [replacementChar]
              | c3 :: rest4 =>
                if isUtf8Cont c3 then
                  Char.ofNat ((b - 0xF0) * 0x40000 + (c1 - 0x80) * 0x1000 +
                    (c2 - 0x80) * 0x40 + (c3 - 0x80)) ::
                    utf8DecodeLossyAux fuel rest4
                else replacementChar :: utf8DecodeLossyAux fuel (c3 :: rest4)
            else replacementChar :: utf8DecodeLossyAux fuel (c2 :: rest3)
        else replacementChar :: utf8DecodeLossyAux fuel (c1 :: rest2)
    else replacementChar :: utf8DecodeLossyAux fuel rest

/-- Lossy UTF-8 decoding of a byte sequence. -/
def utf8DecodeLossy (l : List Nat) : List Char := utf8DecodeLossyAux l.length l

/-- The first item of Rust slice::split_inclusive at the nul byte, as used by
stringify_buffer: none on an empty buffer, otherwise the bytes up to and
including the first nul, or the whole buffer when no nul is present. -/
def splitInclusiveFirst : List Nat → Option (List Nat)
  | [] => none
  | b :: rest =>
    if b = 0 then some [b]
    else some (b :: ((splitInclusiveFirst rest).getD []))

lemma splitInclusiveFirst_cons (b : Nat) (rest : List Nat) :
    splitInclusiveFirst (b :: rest) =
      if b = 0 then some [b]
      else some (b :: ((splitInclusiveFirst rest).getD [])) := rfl

/-- Rust CStr::from_bytes_with_nul followed by to_bytes: accepts a slice
that is nul-terminated with no interior nul and yields the bytes before the
terminator. -/
def cstrFromBytesWithNul (bytes : List Nat) : Option (List Nat) :=
  if bytes.getLast? = some 0 ∧ 0 ∉ bytes.dropLast then some bytes.dropLast
  else none

/-- stringify_buffer from src/utility.rs lines 68 to 78: take the first
split_inclusive segment at the nul byte (failing with InvalidNullString on an
empty buffer), check it is a well-formed C string (failing with
InvalidNullString otherwise), and decode its bytes lossily. -/
def stringify_buffer (buffer : List Nat) : Except Error (List Char) :=
  match splitInclusiveFirst buffer with
  | none => .error .InvalidNullString
  | some seg =>
    match cstrFromBytesWithNul seg with
    | none => .error .InvalidNullString
    | some bytes => .ok (utf8DecodeLossy bytes)

/-- ResourceManager::find_resources (src/resource_manager.rs lines 77 to
117) against a transport script: the raw status of the initial viFindRsrc
call, the reported count, the description buffer it filled, and one
(status, buffer) pair per viFindNext call of the loop, which runs count - 1
times. -/
def find_resources (firstStatus : Int) (count : Nat) (firstDesc : List Nat)
    (nextResults : List (Int × List Nat)) : Except Error (List (List Char)) :=
  match CompletionCode.tryFrom firstStatus with
  | .error e => .error e
  | .ok _ =>
    if count < 1 then .ok []
    else
      match stringify_buffer firstDesc with
      | .error e => .error e
      | .ok first =>
        match (nextResults.take (count - 1)).mapM
            (fun r =>
              match CompletionCode.tryFrom r.1 with
              | .error e => (Except.error e : Except Error (List Char))
              | .ok _ => stringify_buffer r.2) with
        | .error e => .error e
        | .ok rest => .ok (first :: rest)

lemma fatal_values_ne_invalid_utf8 : ∀ p ∈ fatalTable, p.2 ≠ Error.InvalidUtf8 := by
  intro p hp
  fin_cases hp <;> simp

lemma tryFrom_ne_invalid_utf8 (s : Int) :
    CompletionCode.tryFrom s ≠ .error .InvalidUtf8 := by
  unfold CompletionCode.tryFrom
  cases hf : fatalTable.find? (fun p => p.1 == s) with
  | some p =>
    have hne := fatal_values_ne_invalid_utf8 p (List.mem_of_find?_eq_some hf)
    simp [hne]
  | none =>
    by_cases hneg : s < 0
    · simp [hneg]
    · simp only [if_neg hneg]
      cases successTable.find? (fun p => p.1 == s) <;> simp

lemma stringify_ne_invalid_utf8 (buffer : List Nat) :
    stringify_buffer buffer ≠ .error .InvalidUtf8 := by
  rcases hs : splitInclusiveFirst buffer with _ | seg
  · simp [stringify_buffer, hs]
  · rcases hc : cstrFromBytesWithNul seg with _ | bytes <;>
      simp [stringify_buffer, hs, hc]

lemma except_bind_ne_invalid_utf8 {α β : Type} (x : Except Error α)
    (f : α → Except Error β) (hx : x ≠ .error .InvalidUtf8)
    (hf : ∀ a, f a ≠ .error .InvalidUtf8) : (x >>= f) ≠ .error .InvalidUtf8 := by
  cases x with
  | error e => simpa [Bind.bind, Except.bind] using hx
  | ok a => simpa [Bind.bind, Except.bind] using hf a

lemma mapM_ne_invalid_utf8 {α β : Type} (f : α → Except Error β) (l : List α)
    (hf : ∀ x ∈ l, f x ≠ .error .InvalidUtf8) :
    l.mapM f ≠ .error .InvalidUtf8 := by
  induction l with
  | nil => simp [List.mapM, List.mapM.loop, Pure.pure, Except.pure]
  | cons a t ih =>
    rw [List.mapM_cons]
    refine except_bind_ne_invalid_utf8 _ _ (hf a (by simp)) (fun b => ?_)
    refine except_bind_ne_invalid_utf8 _ _ (ih (fun x hx => hf x (by simp [hx]))) ?_
    intro bs
    simp [Pure.pure, Except.pure]

lemma split_first_of_mem (l : List Nat) (h : 0 ∈ l) :
    splitInclusiveFirst l = some (l.takeWhile (fun b => b != 0) ++ [0]) := by
  induction l with
  | nil => cases h
  | cons b rest ih =>
    by_cases hb : b = 0
    · subst hb
      simp [splitInclusiveFirst_cons, List.takeWhile_cons]
    · have hr : 0 ∈ rest := by
        cases h with
        | head => exact absurd rfl hb
        | tail _ h => exact h
      rw [splitInclusiveFirst_cons, if_neg hb, ih hr]
      simp [List.takeWhile_cons, hb]

lemma split_first_of_not_mem (l : List Nat) (hne : l ≠ []) (h : 0 ∉ l) :
    splitInclusiveFirst l = some l := by
  induction l with
  | nil => exact absurd rfl hne
  | cons b rest ih =>
    simp only [List.mem_cons, not_or] at h
    have hb : b ≠ 0 := fun hb => h.1 hb.symm
    cases rest with
    | nil =>
      rw [splitInclusiveFirst_cons, if_neg hb]
      rfl
    | cons c rest2 =>
      have hrec := ih (by simp) h.2
      rw [splitInclusiveFirst_cons, if_neg hb, hrec]
      rfl

lemma zero_not_mem_takeWhile (l : List Nat) :
    0 ∉ l.takeWhile (fun b => b != 0) := by
  intro h
  have := List.mem_takeWhile_imp h
  simp at this

lemma match_consMap_ne_invalid_utf8 (first : List Char)
    (x : Except Error (List (List Char))) (hx : x ≠ .error .InvalidUtf8) :
    (match x with
     | Except.error e => Except.error e
     | Except.ok rest => Except.ok (first :: rest)) ≠
      Except.error Error.InvalidUtf8 := by
  cases x with
  | error e => simpa using hx
  | ok rest => simp

/-- C9: resource descriptions are decoded leniently, not strictly: for every
buffer containing a nul terminator, stringify_buffer succeeds, lossily
decoding the bytes before the first nul; it fails with InvalidNullString
exactly when no nul terminator is present; and find_resources never fails
with InvalidUtf8, in contrast to the strict UTF-8 contract of the session
read loop. -/
theorem C9_find_resources_lenient (buffer : List Nat) (firstStatus : Int)
    (count : Nat) (firstDesc : List Nat) (nextResults : List (Int × List Nat)) :
    (0 ∈ buffer → stringify_buffer buffer =
      .ok (utf8DecodeLossy (buffer.takeWhile (fun b => b != 0)))) ∧
    (0 ∉ buffer → stringify_buffer buffer = .error .InvalidNullString) ∧
    find_resources firstStatus count firstDesc nextResults ≠
      .error .InvalidUtf8 := by
  refine ⟨fun h => ?_, fun h => ?_, ?_⟩
  · have hc : cstrFromBytesWithNul (buffer.takeWhile (fun b => b != 0) ++ [0]) =
        some (buffer.takeWhile (fun b => b != 0)) := by
      rw [cstrFromBytesWithNul, if_pos]
      · rw [List.dropLast_concat]
      · exact ⟨List.getLast?_concat _, by
          rw [List.dropLast_concat]
          exact zero_not_mem_takeWhile buffer⟩
    simp [stringify_buffer, split_first_of_mem buffer h, hc]
  · cases hb : buffer with
    | nil => rfl
    | cons x xs =>
      rw [← hb]
      have hc : cstrFromBytesWithNul buffer = none := by
        rw [cstrFromBytesWithNul, if_neg]
        intro hcontra
        exact h (List.mem_of_mem_getLast? hcontra.1)
      simp [stringify_buffer, split_first_of_not_mem buffer (by simp [hb]) h, hc]
  · unfold find_resources
    rcases h1 : CompletionCode.tryFrom firstStatus with e | c
    · have hne := tryFrom_ne_invalid_utf8 firstStatus
      rw [h1] at hne
      simpa [h1] using hne
    · simp only [h1]
      by_cases hcount : count < 1
      · simp [hcount]
      · simp only [if_neg hcount]
        rcases h2 : stringify_buffer firstDesc with e | first
        · have hne := stringify_ne_invalid_utf8 firstDesc
          rw [h2] at hne
          simpa using hne
        · simp only [h2]
          have hmap : (nextResults.take (count - 1)).mapM
              (fun r =>
                match CompletionCode.tryFrom r.1 with
                | .error e => (Except.error e : Except Error (List Char))
                | .ok _ => stringify_buffer r.2) ≠
              Except.error Error.InvalidUtf8 := by
            refine mapM_ne_invalid_utf8 _ _ fun x _ => ?_
            rcases h4 : CompletionCode.tryFrom x.1 with e | c2
            · have hne := tryFrom_ne_invalid_utf8 x.1
              rw [h4] at hne
              simpa using hne
            · simpa [h4] using stringify_ne_invalid_utf8 x.2
          exact match_consMap_ne_invalid_utf8 first _ hmap

/-- Witness for C9: a buffer holding an invalid UTF-8 byte before its nul
terminator decodes lossily to the replacement character, and a buffer
without a nul terminator fails with InvalidNullString. -/
theorem C9_find_resources_lenient_witness :
    stringify_buffer [0x41, 0xFF, 0x00, 0x42] = .ok ['A', replacementChar] ∧
    stringify_buffer [0x41, 0x42] = .error .InvalidNullString := by
  exact ⟨(C9_find_resources_lenient [0x41, 0xFF, 0x00, 0x42] 0 0 [] []).1
      (by decide),
    (C9_find_resources_lenient [0x41, 0x42] 0 0 [] []).2.1 (by decide)⟩

end Visa
